import Mathlib

/-!
# Sobub AI — verification of the real-time session pipeline

Shallow embedding of the core components of the sobub-ai repository:
the client-side audio capture session (`WebSocketService` in
`frontend/src/services/websocket.js`), the playback coordinator
(`AudioPlayer.jsx` together with the app wiring that connects its
callbacks to the capture session), and — modelled from the spec, since
the backend Python sources are not part of this snapshot — the
`TriggerEngine` and `ContextMatcher`.

Machine state is represented by explicit records; event handlers and
methods become pure functions from state to state paired with the list
of observable effects (sends on the socket, recorder commands, timer
registrations) the corresponding JavaScript would perform.
-/

namespace Sobub

/-! ## Data model -/

/-- A library item: an audio meme with its tag list (external entity,
read-only to the core). -/
structure MemeItem where
  id : Nat
  tags : List String
  filename : String
deriving Repr, DecidableEq

/-- Per-session trigger settings: cooldown window in seconds and trigger
probability in percent (a float in `[0,100]`, embedded as `ℚ`). -/
structure TriggerSettings where
  cooldownSeconds : Nat
  triggerProbabilityPercent : ℚ
deriving Repr, DecidableEq

/-! ## ContextMatcher

Modelled from the spec: the backend matcher
(`backend/app/context_analyzer.py`) is not under `src/`; only its
contract is given (§4.3): case-insensitive containment — an item is a
match if the transcript, lower-cased, contains at least one of its tags,
lower-cased, as a substring; each item reported at most once. -/

/-- Lower-case a string to its character list (model of `str.lower()`
followed by reading the text as a character sequence). -/
def lowerChars (s : String) : List Char :=
  s.data.map Char.toLower

/-- Does `pat` stand at the very front of `s`? -/
def leadsWith : List Char → List Char → Bool
  | [], _ => true
  | _ :: _, [] => false
  | p :: ps, c :: cs => p == c && leadsWith ps cs

/-- Does `pat` occur contiguously anywhere inside `s`? -/
def occursIn : List Char → List Char → Bool
  | pat, [] => pat.isEmpty
  | pat, c :: cs => leadsWith pat (c :: cs) || occursIn pat cs

/-- Modelled from the spec: does lower-cased `tag` occur as a contiguous
substring of lower-cased `transcript`? -/
def tagOccurs (transcript tag : String) : Bool :=
  occursIn (lowerChars tag) (lowerChars transcript)

/-- Modelled from the spec: `match(T, library)` — the sub-list of library
items having at least one tag occurring in the transcript. Pure, hence
deterministic and side-effect free by construction. -/
def contextMatch (transcript : String) (library : List MemeItem) : List MemeItem :=
  library.filter (fun item => item.tags.any (fun tag => tagOccurs transcript tag))

/-! ## TriggerEngine

Modelled from the spec: the backend trigger engine
(`backend/app/trigger_engine.py`) is not under `src/`; §4.4 of the spec
gives its contract. The cooldown state stores the time playback last
ended; the decision function checks (for a non-empty match set) the
cooldown window, then a uniform roll in `[0,100)` against the
probability threshold via `roll < threshold`, then selects one item
from the match set. Randomness is exposed as explicit inputs: the roll
and a selection index reduced modulo the match-set size. -/

/-- Cooldown state, owned by the TriggerEngine: the timestamp at which
playback last ended, if any. -/
structure CooldownState where
  lastPlaybackEndedAt : Option Nat
deriving Repr, DecidableEq

/-- Modelled from the spec: the engine is `CoolingDown` at time `now`
iff a playback-end timestamp exists and `now − lastPlaybackEndedAt <
cooldownSeconds`; otherwise it is `Ready`. -/
def underCooldown (cs : CooldownState) (st : TriggerSettings) (now : Nat) : Bool :=
  match cs.lastPlaybackEndedAt with
  | none => false
  | some t => now - t < st.cooldownSeconds

/-- Outcome of one `decide()` call. -/
inductive Decision where
  | noTrigger
  | trigger (item : MemeItem)
deriving Repr, DecidableEq

/-- Modelled from the spec: the `decide()` function of the TriggerEngine
(§4.4). An empty match set yields no-trigger; in `CoolingDown` it yields
no-trigger; a roll `≥` the probability threshold yields no-trigger;
otherwise the item at index `pick mod |items|` is triggered. -/
def TriggerEngine.decide (cs : CooldownState) (st : TriggerSettings)
    (items : List MemeItem) (now : Nat) (roll : ℚ) (pick : Nat) : Decision :=
  match items with
  | [] => .noTrigger
  | m :: ms =>
    if underCooldown cs st now then .noTrigger
    else if st.triggerProbabilityPercent ≤ roll then .noTrigger
    else .trigger ((m :: ms).get ⟨pick % (ms.length + 1), Nat.mod_lt _ (Nat.succ_pos _)⟩)

/-- Modelled from the spec: `onPlaybackEnded()` — the explicit playback
ended signal sets `lastPlaybackEndedAt := now`. -/
def TriggerEngine.onPlaybackEnded (now : Nat) : CooldownState :=
  { lastPlaybackEndedAt := some now }

/-- Events processed by the TriggerEngine. -/
inductive TEEvent where
  | decideReq (items : List MemeItem) (now : Nat) (roll : ℚ) (pick : Nat)
  | playbackEnded (now : Nat)

/-- Is this event a `decide()` request (as opposed to the explicit
playback-ended signal)? -/
def TEEvent.isDecideReq : TEEvent → Bool
  | .decideReq _ _ _ _ => true
  | .playbackEnded _ => false

/-- Modelled from the spec: one engine step — `decide()` reads but never
mutates the cooldown state ("selecting and emitting a trigger does not
itself start the cooldown"); only `onPlaybackEnded` writes it. -/
def TriggerEngine.step (st : TriggerSettings) (cs : CooldownState) :
    TEEvent → CooldownState × Decision
  | .decideReq items now roll pick =>
      (cs, TriggerEngine.decide cs st items now roll pick)
  | .playbackEnded now => (TriggerEngine.onPlaybackEnded now, .noTrigger)

/-- Run a sequence of events through the engine, returning the final
cooldown state. -/
def TriggerEngine.run (st : TriggerSettings) (cs : CooldownState)
    (events : List TEEvent) : CooldownState :=
  events.foldl (fun s e => (TriggerEngine.step st s e).1) cs

/-! ## AudioCaptureSession — `WebSocketService` in
`frontend/src/services/websocket.js` (the revision with corruption
recovery). Each JavaScript method or event handler becomes a pure
function from the service state to the new state paired with the list
of observable effects it performs. -/

/-- `WebSocket.readyState` of the underlying connection. -/
inductive WsReadyState where
  | connecting
  | opened
  | closing
  | closed
deriving Repr, DecidableEq

/-- `MediaRecorder.state` (we only need recording vs. inactive). -/
inductive RecState where
  | recording
  | inactive
deriving Repr, DecidableEq

/-- The mutable fields of `WebSocketService`. `ws = none` models
`this.ws === null`; `audioStream` records whether a microphone stream is
held. -/
structure CaptureState where
  ws : Option WsReadyState
  isRecording : Bool
  isAudioPlaying : Bool
  corruptedChunksCount : Nat
  mediaRecorder : Option RecState
  audioStream : Bool
  chunkLengthSeconds : Nat
deriving Repr, DecidableEq

/-- `this.ws && this.ws.readyState === WebSocket.OPEN`. -/
def wsIsOpen (s : CaptureState) : Bool :=
  s.ws == some .opened

/-- Observable effects of the service: socket sends, recorder commands,
microphone release, timer registrations, awaited delays, error
reporting, and the invocation of `restartRecording`. -/
inductive Action where
  | sendChunk (size : Nat)
  | sendControl (msg : String)
  | wsClose
  | recorderStart
  | recorderStop
  | stopTracks
  | scheduleStop (delayMs : Nat)
  | scheduleCycle (delayMs : Nat)
  | scheduleResume (delayMs : Nat)
  | waitMs (delayMs : Nat)
  | reportError (name msg : String)
  | restartInvoked
deriving Repr, DecidableEq

/-- A thrown/reported JavaScript error, reduced to its `name` and
`message`. -/
structure JsError where
  name : String
  message : String
deriving Repr, DecidableEq

/-- The message of the error thrown when `navigator.mediaDevices` /
`getUserMedia` is unavailable (no secure transport). -/
def notSupportedMessage : String :=
  "Acesso ao microfone não disponível. A API getUserMedia requer HTTPS ou localhost. No celular, acesse via HTTPS ou use Chrome com a flag chrome://flags/#unsafely-treat-insecure-origin-as-secure"

/-- The user-facing message chosen in the `catch` block of
`startRecording` according to the error's `name`. -/
def enhancedMessage (e : JsError) : String :=
  if e.name = "NotAllowedError" then
    "Permissão de microfone negada. Por favor, permita o acesso ao microfone nas configurações do navegador."
  else if e.name = "NotFoundError" then
    "Nenhum microfone encontrado. Verifique se seu dispositivo tem um microfone conectado."
  else if e.name = "NotSupportedError" then
    e.message
  else if e.name = "NotReadableError" then
    "Microfone já está em uso por outro aplicativo. Feche outros apps que usam o microfone."
  else
    e.message

/-- The enhanced error rethrown by `startRecording`: same `name`,
user-facing `message`. -/
def enhanceError (e : JsError) : JsError :=
  { name := e.name, message := enhancedMessage e }

/-- `MIN_CHUNK_SIZE` from `startRecordingCycle`. -/
def MIN_CHUNK_SIZE : Nat := 500

/-- `startRecordingCycle()`: bail out when not recording, the stream is
gone, or a recorder is already in flight; otherwise create and start a
fresh recorder and arm the chunk-duration stop timer. -/
def startRecordingCycle (s : CaptureState) : CaptureState × List Action :=
  if s.isRecording = false ∨ s.audioStream = false then (s, [])
  else if s.mediaRecorder = some .recording then (s, [])
  else ({ s with mediaRecorder := some .recording },
        [Action.recorderStart, Action.scheduleStop (s.chunkLengthSeconds * 1000)])

/-- The trailing re-arm check of the `onstop` handler:
`if (this.isRecording && !this.isAudioPlaying) setTimeout(cycle, 100)`. -/
def chunkCycleReschedule (s : CaptureState) : List Action :=
  if s.isRecording = true ∧ s.isAudioPlaying = false then [Action.scheduleCycle 100] else []

/-- The transmission step of the `onstop` handler:
`if (!this.isAudioPlaying && blob.size >= MIN_CHUNK_SIZE)` then send the
buffer, re-checking that the socket is still open. -/
def chunkSendActions (s : CaptureState) (blobSize : Nat) : List Action :=
  if s.isAudioPlaying = false ∧ MIN_CHUNK_SIZE ≤ blobSize then
    (if wsIsOpen s = true then [Action.sendChunk blobSize] else [])
  else []

/-- The `mediaRecorder.onstop` handler of `startRecordingCycle`, given
the sizes of the `ondataavailable` payloads of the finished cycle (only
non-empty payloads were pushed onto `chunks`). -/
def handleChunkStop (s : CaptureState) (dataSizes : List Nat) : CaptureState × List Action :=
  let chunks := dataSizes.filter (fun n => decide (0 < n))
  let blobSize := chunks.sum
  if chunks ≠ [] ∧ wsIsOpen s = true then
    if blobSize < MIN_CHUNK_SIZE then
      let s1 : CaptureState := { s with corruptedChunksCount := s.corruptedChunksCount + 1 }
      if 1 ≤ s1.corruptedChunksCount then
        (s1, [Action.restartInvoked])
      else
        (s1, chunkSendActions s1 blobSize ++ chunkCycleReschedule s1)
    else
      let s1 : CaptureState := { s with corruptedChunksCount := 0 }
      (s1, chunkSendActions s1 blobSize ++ chunkCycleReschedule s1)
  else
    (s, chunkCycleReschedule s)

/-- `startRecording(chunkLengthSeconds)`. The environment is passed
explicitly: whether `navigator.mediaDevices.getUserMedia` exists, and
the outcome of the `getUserMedia` call. Returns the new state, the
effects, and the enhanced error rethrown on failure (if any). -/
def startRecording (s : CaptureState) (mediaDevicesAvailable : Bool)
    (micResult : Except JsError Unit) (chunkLen : Nat) :
    CaptureState × List Action × Option JsError :=
  if s.isRecording = true then (s, [], none)
  else
    let s0 : CaptureState := { s with isAudioPlaying := false }
    if mediaDevicesAvailable = false then
      let err := enhanceError { name := "NotSupportedError", message := notSupportedMessage }
      (s0, [Action.reportError err.name err.message], some err)
    else
      match micResult with
      | .error e =>
        let err := enhanceError e
        (s0, [Action.reportError err.name err.message], some err)
      | .ok _ =>
        let s1 : CaptureState :=
          { s0 with audioStream := true, chunkLengthSeconds := chunkLen, isRecording := true }
        let (s2, acts) := startRecordingCycle s1
        (s2, acts, none)

/-- `stopRecording()`: clear the flags and the corrupt counter, stop an
in-flight recorder, release the microphone tracks, and null the
recorder. -/
def stopRecording (s : CaptureState) : CaptureState × List Action :=
  let recActs := if s.mediaRecorder = some .recording then [Action.recorderStop] else []
  let trackActs := if s.audioStream = true then [Action.stopTracks] else []
  ({ s with isRecording := false, isAudioPlaying := false, corruptedChunksCount := 0,
            audioStream := false, mediaRecorder := none },
   recActs ++ trackActs)

/-- `restartRecording()`: remember the configured chunk length, stop,
await a fixed 500 ms delay, then start again at the saved length; a
failure of the restart is caught and reported. -/
def restartRecording (s : CaptureState) (mediaDevicesAvailable : Bool)
    (micResult : Except JsError Unit) : CaptureState × List Action :=
  let saved := s.chunkLengthSeconds
  let (s1, acts1) := stopRecording s
  let (s2, acts2, err) := startRecording s1 mediaDevicesAvailable micResult saved
  let catchActs := match err with
    | some e => [Action.reportError e.name e.message]
    | none => []
  (s2, acts1 ++ [Action.waitMs 500] ++ acts2 ++ catchActs)

/-- `setAudioPlaying(isPlaying)`: on the rising edge stop an in-flight
recorder; on the falling edge, if still recording, arm a 100 ms timer
that resumes the chunk cycle. -/
def setAudioPlaying (s : CaptureState) (isPlaying : Bool) : CaptureState × List Action :=
  let wasPlaying := s.isAudioPlaying
  let s1 : CaptureState := { s with isAudioPlaying := isPlaying }
  let stopActs :=
    if wasPlaying = false ∧ isPlaying = true ∧ s.mediaRecorder = some .recording then
      [Action.recorderStop]
    else []
  let resumeActs :=
    if wasPlaying = true ∧ isPlaying = false ∧ s.isRecording = true then
      [Action.scheduleResume 100]
    else []
  (s1, stopActs ++ resumeActs)

/-- The callback armed by the falling edge of `setAudioPlaying`: when it
fires it re-checks `this.isRecording` before restarting the cycle. -/
def resumeTimerFire (s : CaptureState) : CaptureState × List Action :=
  if s.isRecording = true then startRecordingCycle s else (s, [])

/-- `sendControlMessage(message)`: send the JSON message only when the
socket exists and is open; otherwise do nothing at all. -/
def sendControlMessage (s : CaptureState) (msgType : String) : List Action :=
  if wsIsOpen s = true then [Action.sendControl msgType] else []

/-- `getStatus()` forwards to `sendControlMessage({type:"get_status"})`. -/
def getStatus (s : CaptureState) : List Action :=
  sendControlMessage s "get_status"

/-- `disconnect()`: close and null the socket if present, then stop
recording. -/
def disconnect (s : CaptureState) : CaptureState × List Action :=
  let (s1, closeActs) :=
    if s.ws ≠ none then ({ s with ws := none }, [Action.wsClose]) else (s, ([] : List Action))
  let (s2, stopActs) := stopRecording s1
  (s2, closeActs ++ stopActs)

/-! ## PlaybackCoordinator — `AudioPlayer.jsx` (the revision with the
`onAutoplayBlocked` callback) together with the `AppContent` wiring that
routes its callbacks into the capture session and the socket. -/

/-- The callbacks an `AudioPlayer` invocation may fire. -/
inductive PlayerCallback where
  | playStart
  | playEnd
  | playComplete
  | autoplayBlocked
deriving Repr, DecidableEq

/-- How one playback attempt can go. -/
inductive PlaybackOutcome where
  | completes
  | failsAfterStart
  | blockedAutoplay
  | resourceError
deriving Repr, DecidableEq

/-- The callback sequence `AudioPlayer` fires for each outcome:
completion goes `onPlay`, `onEnded` (which calls `onPlayEnd` then
`onPlayComplete`); a playback/decode error after start goes `onPlay`,
`onError` (which calls `onPlayEnd`); a rejected `play()` promise calls
`onAutoplayBlocked` when that prop was supplied and `onPlayEnd`
otherwise; an exception around `play()` is caught and calls
`onPlayEnd`. -/
def playerCallbackTrace (hasBlockedHandler : Bool) : PlaybackOutcome → List PlayerCallback
  | .completes => [.playStart, .playEnd, .playComplete]
  | .failsAfterStart => [.playStart, .playEnd]
  | .blockedAutoplay => if hasBlockedHandler then [.autoplayBlocked] else [.playEnd]
  | .resourceError => [.playEnd]

/-- Effects the app-level handlers perform. -/
inductive AppEffect where
  | setAudioPlaying (b : Bool)
  | sendControl (msg : String)
  | showUnlockModal
deriving Repr, DecidableEq

/-- The `AppContent` handlers: `handlePlayStart` pauses the capture
session; `handlePlayEnd` resumes it and sends `audio_ended`;
`handlePlayComplete` does nothing; `handleAutoplayBlocked` only shows
the audio-unlock modal. -/
def appHandle : PlayerCallback → List AppEffect
  | .playStart => [AppEffect.setAudioPlaying true]
  | .playEnd => [AppEffect.setAudioPlaying false, AppEffect.sendControl "audio_ended"]
  | .playComplete => []
  | .autoplayBlocked => [AppEffect.showUnlockModal]

/-- All app-level effects of one playback attempt. -/
def playbackEffects (hasBlockedHandler : Bool) (o : PlaybackOutcome) : List AppEffect :=
  ((playerCallbackTrace hasBlockedHandler o).map appHandle).flatten

/-! ### Sample service states used to instantiate the theorems -/

/-- Mid-session: open socket, recording, recorder in flight, mic held. -/
def sampleActive : CaptureState :=
  { ws := some .opened, isRecording := true, isAudioPlaying := false,
    corruptedChunksCount := 0, mediaRecorder := some .recording,
    audioStream := true, chunkLengthSeconds := 3 }

/-- Paused for playback: open socket, session active, playback flag set. -/
def samplePlaying : CaptureState :=
  { ws := some .opened, isRecording := true, isAudioPlaying := true,
    corruptedChunksCount := 0, mediaRecorder := none,
    audioStream := true, chunkLengthSeconds := 3 }

/-- Between cycles: session active, mic held, no recorder in flight. -/
def sampleBetweenCycles : CaptureState :=
  { ws := some .opened, isRecording := true, isAudioPlaying := false,
    corruptedChunksCount := 0, mediaRecorder := none,
    audioStream := true, chunkLengthSeconds := 3 }

/-- Idle with an open socket: nothing recording, no mic. -/
def sampleIdle : CaptureState :=
  { ws := some .opened, isRecording := false, isAudioPlaying := false,
    corruptedChunksCount := 0, mediaRecorder := none,
    audioStream := false, chunkLengthSeconds := 3 }

/-- Fully torn down: no socket at all. -/
def sampleClosed : CaptureState :=
  { ws := none, isRecording := false, isAudioPlaying := false,
    corruptedChunksCount := 0, mediaRecorder := none,
    audioStream := false, chunkLengthSeconds := 3 }

/-- Idle but with a stale corrupt-chunk counter. -/
def staleCounterState : CaptureState :=
  { ws := some .opened, isRecording := false, isAudioPlaying := false,
    corruptedChunksCount := 1, mediaRecorder := none,
    audioStream := false, chunkLengthSeconds := 3 }

/-! ## Correspondence lemmas for the substring matcher -/

/-- `leadsWith` decides the prefix relation. -/
theorem leadsWith_iff (pat s : List Char) : leadsWith pat s = true ↔ pat <+: s := by
  induction pat generalizing s with
  | nil => simp [leadsWith]
  | cons p ps ih =>
    cases s with
    | nil => simp [leadsWith]
    | cons c cs => simp [leadsWith, ih, List.cons_prefix_cons]

/-- `occursIn` decides the contiguous-substring (infix) relation. -/
theorem occursIn_iff (pat s : List Char) : occursIn pat s = true ↔ pat <:+: s := by
  induction s with
  | nil => simp [occursIn, List.isEmpty_iff, List.infix_nil]
  | cons c cs ih => simp [occursIn, leadsWith_iff, ih, List.infix_cons_iff]

/-- A non-empty string lower-cases to a non-empty character list. -/
theorem lowerChars_ne_nil (s : String) (h : s ≠ "") : lowerChars s ≠ [] := by
  intro hnil
  apply h
  have hdata : s.data = [] := by
    have := hnil
    simpa [lowerChars, List.map_eq_nil_iff] using this
  cases s
  simpa [String.ext_iff] using hdata

/-- Lower-casing the empty string gives no characters. -/
theorem lowerChars_empty : lowerChars "" = [] := rfl

/-- A run of the engine over decide-only events never changes the
cooldown state. -/
theorem run_decide_only (st : TriggerSettings) (events : List TEEvent) :
    ∀ cs : CooldownState, (∀ e ∈ events, e.isDecideReq = true) →
      TriggerEngine.run st cs events = cs := by
  induction events with
  | nil => intro cs _; rfl
  | cons e es ih =>
    intro cs hdec
    cases e with
    | decideReq items now roll pick =>
      have hstep : TriggerEngine.run st cs (TEEvent.decideReq items now roll pick :: es)
          = TriggerEngine.run st cs es := rfl
      rw [hstep]
      exact ih cs (fun x hx => hdec x (List.mem_cons_of_mem _ hx))
    | playbackEnded now =>
      have := hdec _ (List.mem_cons_self _ _)
      simp [TEEvent.isDecideReq] at this

/-! ## Claim theorems -/

/-- C1: a sequence of `decide()` calls — triggers emitted or not — with
no `onPlaybackEnded()` in between leaves the TriggerEngine's
CooldownState unchanged; only the explicit playback-ended signal sets
`lastPlaybackEndedAt := now` and moves the engine to `CoolingDown`. -/
theorem c1_decide_preserves_cooldown_state
    (st : TriggerSettings) (cs : CooldownState) (events : List TEEvent)
    (hdec : ∀ e ∈ events, e.isDecideReq = true) :
    TriggerEngine.run st cs events = cs
    ∧ (∀ now, (TriggerEngine.step st cs (.playbackEnded now)).1
        = { lastPlaybackEndedAt := some now })
    ∧ (∀ now, 0 < st.cooldownSeconds →
        underCooldown (TriggerEngine.step st cs (.playbackEnded now)).1 st now = true) := by
  refine ⟨run_decide_only st events cs hdec, fun now => rfl, fun now h => ?_⟩
  simp [TriggerEngine.step, TriggerEngine.onPlaybackEnded, underCooldown, h]

/-- C1 witness: two decide calls (one of which triggers) leave a ready
engine ready. -/
theorem c1_decide_preserves_cooldown_state_witness :
    TriggerEngine.run ⟨180, 50⟩ ⟨none⟩
        [TEEvent.decideReq [⟨1, ["goal"], "goal.mp3"⟩] 0 42 0,
         TEEvent.decideReq [] 5 99 2] = ⟨none⟩
    ∧ (∀ now, (TriggerEngine.step ⟨180, 50⟩ ⟨none⟩ (.playbackEnded now)).1
        = { lastPlaybackEndedAt := some now })
    ∧ (∀ now, 0 < (180 : Nat) →
        underCooldown (TriggerEngine.step ⟨180, 50⟩ ⟨none⟩ (.playbackEnded now)).1
          ⟨180, 50⟩ now = true) :=
  c1_decide_preserves_cooldown_state ⟨180, 50⟩ ⟨none⟩ _ (by decide)

/-- C2: `decide()` returns no-trigger inside the cooldown window
regardless of probability and matches; an empty match set never
triggers; in `Ready` state with a non-empty match set it triggers
exactly when the uniform roll in `[0,100)` is strictly below the
probability (so probability 100 always triggers and probability 0 never
does), and the selected item comes from the match set, every match
being selectable. -/
theorem c2_decide_gates
    (cs : CooldownState) (st : TriggerSettings) (items : List MemeItem)
    (now : Nat) (roll : ℚ) (pick : Nat)
    (hroll0 : 0 ≤ roll) (hroll1 : roll < 100) :
    (∀ t, cs.lastPlaybackEndedAt = some t → now - t < st.cooldownSeconds →
        TriggerEngine.decide cs st items now roll pick = .noTrigger)
    ∧ (items = [] → TriggerEngine.decide cs st items now roll pick = .noTrigger)
    ∧ (underCooldown cs st now = false → items ≠ [] →
        (TriggerEngine.decide cs st items now roll pick ≠ .noTrigger ↔
          roll < st.triggerProbabilityPercent))
    ∧ (underCooldown cs st now = false → items ≠ [] →
        st.triggerProbabilityPercent = 100 →
        TriggerEngine.decide cs st items now roll pick ≠ .noTrigger)
    ∧ (st.triggerProbabilityPercent = 0 →
        TriggerEngine.decide cs st items now roll pick = .noTrigger)
    ∧ (∀ item, TriggerEngine.decide cs st items now roll pick = .trigger item →
        item ∈ items)
    ∧ (underCooldown cs st now = false → roll < st.triggerProbabilityPercent →
        ∀ i : Fin items.length, ∃ k,
          TriggerEngine.decide cs st items now roll k = .trigger (items.get i)) := by
  refine ⟨?_, ?_, ?_, ?_, ?_, ?_, ?_⟩
  · intro t ht hlt
    have hc : underCooldown cs st now = true := by
      simp [underCooldown, ht, hlt]
    cases items with
    | nil => rfl
    | cons m ms => simp [TriggerEngine.decide, hc]
  · intro h
    subst h
    rfl
  · intro hrdy hne
    cases items with
    | nil => exact absurd rfl hne
    | cons m ms =>
      by_cases hpr : st.triggerProbabilityPercent ≤ roll
      · simp [TriggerEngine.decide, hrdy, hpr, not_lt.mpr hpr]
      · simp [TriggerEngine.decide, hrdy, hpr, lt_of_not_ge hpr]
  · intro hrdy hne h100
    cases items with
    | nil => exact absurd rfl hne
    | cons m ms =>
      have hpr : ¬ st.triggerProbabilityPercent ≤ roll := by
        rw [h100]; exact not_le.mpr hroll1
      simp [TriggerEngine.decide, hrdy, hpr]
  · intro h0
    cases items with
    | nil => rfl
    | cons m ms =>
      by_cases hc : underCooldown cs st now
      · simp [TriggerEngine.decide, hc]
      · have hpr : st.triggerProbabilityPercent ≤ roll := by rw [h0]; exact hroll0
        simp [TriggerEngine.decide, hc, hpr]
  · intro item h
    cases items with
    | nil => simp [TriggerEngine.decide] at h
    | cons m ms =>
      simp only [TriggerEngine.decide] at h
      split_ifs at h
      simp only [Decision.trigger.injEq, List.get_eq_getElem] at h
      rw [← h]
      exact List.getElem_mem _
  · intro hrdy hlt i
    cases items with
    | nil => exact i.elim0
    | cons m ms =>
      refine ⟨i.val, ?_⟩
      have hmod : i.val % (ms.length + 1) = i.val := Nat.mod_eq_of_lt i.isLt
      simp [TriggerEngine.decide, hrdy, not_le.mpr hlt, hmod]

/-- C2 witness: the spec §8 scenario — playback ended at t=10,
cooldown 180 s, probability 50, decision at t=190 with roll 42 on a
one-element match set triggers that element. -/
theorem c2_decide_gates_witness :
    (∀ t, (⟨some 10⟩ : CooldownState).lastPlaybackEndedAt = some t →
        190 - t < (⟨180, 50⟩ : TriggerSettings).cooldownSeconds →
        TriggerEngine.decide ⟨some 10⟩ ⟨180, 50⟩ [⟨1, ["goal"], "goal.mp3"⟩] 190 42 0
          = .noTrigger)
    ∧ (([⟨1, ["goal"], "goal.mp3"⟩] : List MemeItem) = [] →
        TriggerEngine.decide ⟨some 10⟩ ⟨180, 50⟩ [⟨1, ["goal"], "goal.mp3"⟩] 190 42 0
          = .noTrigger)
    ∧ (underCooldown ⟨some 10⟩ ⟨180, 50⟩ 190 = false →
        ([⟨1, ["goal"], "goal.mp3"⟩] : List MemeItem) ≠ [] →
        (TriggerEngine.decide ⟨some 10⟩ ⟨180, 50⟩ [⟨1, ["goal"], "goal.mp3"⟩] 190 42 0
            ≠ .noTrigger ↔
          (42 : ℚ) < (⟨180, 50⟩ : TriggerSettings).triggerProbabilityPercent))
    ∧ (underCooldown ⟨some 10⟩ ⟨180, 50⟩ 190 = false →
        ([⟨1, ["goal"], "goal.mp3"⟩] : List MemeItem) ≠ [] →
        (⟨180, 50⟩ : TriggerSettings).triggerProbabilityPercent = 100 →
        TriggerEngine.decide ⟨some 10⟩ ⟨180, 50⟩ [⟨1, ["goal"], "goal.mp3"⟩] 190 42 0
          ≠ .noTrigger)
    ∧ ((⟨180, 50⟩ : TriggerSettings).triggerProbabilityPercent = 0 →
        TriggerEngine.decide ⟨some 10⟩ ⟨180, 50⟩ [⟨1, ["goal"], "goal.mp3"⟩] 190 42 0
          = .noTrigger)
    ∧ (∀ item, TriggerEngine.decide ⟨some 10⟩ ⟨180, 50⟩ [⟨1, ["goal"], "goal.mp3"⟩] 190 42 0
          = .trigger item → item ∈ ([⟨1, ["goal"], "goal.mp3"⟩] : List MemeItem))
    ∧ (underCooldown ⟨some 10⟩ ⟨180, 50⟩ 190 = false →
        (42 : ℚ) < (⟨180, 50⟩ : TriggerSettings).triggerProbabilityPercent →
        ∀ i : Fin ([⟨1, ["goal"], "goal.mp3"⟩] : List MemeItem).length, ∃ k,
          TriggerEngine.decide ⟨some 10⟩ ⟨180, 50⟩ [⟨1, ["goal"], "goal.mp3"⟩] 190 42 k
            = .trigger (([⟨1, ["goal"], "goal.mp3"⟩] : List MemeItem).get i)) :=
  c2_decide_gates ⟨some 10⟩ ⟨180, 50⟩ [⟨1, ["goal"], "goal.mp3"⟩] 190 42 0
    (by decide) (by decide)

/-- C3: the ContextMatcher returns exactly the library items one of
whose tags, lower-cased, occurs as a substring of the lower-cased
transcript; each item at most once (for a duplicate-free library); an
empty transcript (with real, non-empty tags) or an empty tag set never
matches; it is a pure function, hence deterministic and side-effect
free. -/
theorem c3_contextMatch_spec
    (T : String) (library : List MemeItem)
    (hnodup : library.Nodup)
    (htags : ∀ item ∈ library, ∀ tag ∈ item.tags, tag ≠ "") :
    (∀ item, item ∈ contextMatch T library ↔
        item ∈ library ∧ ∃ tag ∈ item.tags, lowerChars tag <:+: lowerChars T)
    ∧ (contextMatch T library).Nodup
    ∧ (∀ item ∈ library, item.tags = [] → item ∉ contextMatch T library)
    ∧ (T = "" → contextMatch T library = []) := by
  refine ⟨?_, hnodup.filter _, ?_, ?_⟩
  · intro item
    simp [contextMatch, List.mem_filter, List.any_eq_true, tagOccurs, occursIn_iff]
  · intro item _ htags0 hcontra
    rw [contextMatch, List.mem_filter] at hcontra
    simp [htags0] at hcontra
  · intro hT
    subst hT
    rw [contextMatch, List.filter_eq_nil_iff]
    intro item hmem
    simp only [List.any_eq_true, not_exists, not_and, Bool.not_eq_true]
    intro tag htag
    have hne := lowerChars_ne_nil tag (htags item hmem tag htag)
    simp [tagOccurs, lowerChars_empty, occursIn, List.isEmpty_iff, hne]

/-- C3 witness: the spec §8 scenario — "that GOAL was incredible"
matches the item tagged "goal" but a transcript saying "cook" does not
match a "cooking" tag (substring direction is one-way). -/
theorem c3_contextMatch_spec_witness :
    (∀ item, item ∈ contextMatch "that GOAL was incredible"
        [⟨1, ["goal"], "goal.mp3"⟩, ⟨2, ["cooking"], "cook.mp3"⟩] ↔
        item ∈ ([⟨1, ["goal"], "goal.mp3"⟩, ⟨2, ["cooking"], "cook.mp3"⟩] : List MemeItem)
        ∧ ∃ tag ∈ item.tags, lowerChars tag <:+: lowerChars "that GOAL was incredible")
    ∧ (contextMatch "that GOAL was incredible"
        [⟨1, ["goal"], "goal.mp3"⟩, ⟨2, ["cooking"], "cook.mp3"⟩]).Nodup
    ∧ (∀ item ∈ ([⟨1, ["goal"], "goal.mp3"⟩, ⟨2, ["cooking"], "cook.mp3"⟩] : List MemeItem),
        item.tags = [] → item ∉ contextMatch "that GOAL was incredible"
          [⟨1, ["goal"], "goal.mp3"⟩, ⟨2, ["cooking"], "cook.mp3"⟩])
    ∧ ("that GOAL was incredible" = "" → contextMatch "that GOAL was incredible"
        [⟨1, ["goal"], "goal.mp3"⟩, ⟨2, ["cooking"], "cook.mp3"⟩] = []) :=
  c3_contextMatch_spec "that GOAL was incredible"
    [⟨1, ["goal"], "goal.mp3"⟩, ⟨2, ["cooking"], "cook.mp3"⟩] (by decide) (by decide)

/-- C4: an undersized finalized chunk (processed while the socket is
open) increments the corrupt-chunk counter and, the counter being ≥ 1,
performs exactly one session restart and transmits nothing; the restart
releases the microphone, waits the fixed 500 ms delay, then re-acquires
and resumes recording at the same configured chunk length. -/
theorem c4_corrupt_chunk_restart
    (s : CaptureState) (dataSizes : List Nat)
    (hopen : wsIsOpen s = true)
    (hchunks : dataSizes.filter (fun n => decide (0 < n)) ≠ [])
    (hsize : (dataSizes.filter (fun n => decide (0 < n))).sum < MIN_CHUNK_SIZE)
    (hstream : s.audioStream = true) :
    (handleChunkStop s dataSizes).1.corruptedChunksCount = s.corruptedChunksCount + 1
    ∧ (handleChunkStop s dataSizes).2 = [Action.restartInvoked]
    ∧ (∀ sz, Action.sendChunk sz ∉ (handleChunkStop s dataSizes).2)
    ∧ (restartRecording s true (Except.ok ())).1.chunkLengthSeconds = s.chunkLengthSeconds
    ∧ (restartRecording s true (Except.ok ())).1.isRecording = true
    ∧ Action.stopTracks ∈ (restartRecording s true (Except.ok ())).2
    ∧ Action.waitMs 500 ∈ (restartRecording s true (Except.ok ())).2
    ∧ Action.recorderStart ∈ (restartRecording s true (Except.ok ())).2 := by
  have hstop : handleChunkStop s dataSizes
      = ({ s with corruptedChunksCount := s.corruptedChunksCount + 1 },
         [Action.restartInvoked]) := by
    simp [handleChunkStop, hopen, hchunks, hsize, Nat.le_add_left]
  refine ⟨by rw [hstop], by rw [hstop], by rw [hstop]; simp, ?_, ?_, ?_, ?_, ?_⟩
  · simp [restartRecording, stopRecording, startRecording, startRecordingCycle]
  · simp [restartRecording, stopRecording, startRecording, startRecordingCycle]
  · simp [restartRecording, stopRecording, startRecording, startRecordingCycle, hstream]
  · simp [restartRecording, stopRecording, startRecording, startRecordingCycle]
  · simp [restartRecording, stopRecording, startRecording, startRecordingCycle]

/-- C4 witness: a 100-byte chunk in a live session restarts once. -/
theorem c4_corrupt_chunk_restart_witness :
    (handleChunkStop sampleActive [100]).1.corruptedChunksCount
        = sampleActive.corruptedChunksCount + 1
    ∧ (handleChunkStop sampleActive [100]).2 = [Action.restartInvoked]
    ∧ (∀ sz, Action.sendChunk sz ∉ (handleChunkStop sampleActive [100]).2)
    ∧ (restartRecording sampleActive true (Except.ok ())).1.chunkLengthSeconds
        = sampleActive.chunkLengthSeconds
    ∧ (restartRecording sampleActive true (Except.ok ())).1.isRecording = true
    ∧ Action.stopTracks ∈ (restartRecording sampleActive true (Except.ok ())).2
    ∧ Action.waitMs 500 ∈ (restartRecording sampleActive true (Except.ok ())).2
    ∧ Action.recorderStart ∈ (restartRecording sampleActive true (Except.ok ())).2 :=
  c4_corrupt_chunk_restart sampleActive [100] (by decide) (by decide) (by decide) (by decide)

/-- C5: a finalized chunk of valid size (socket open) is transmitted
immediately when playback is inactive, and silently discarded — no
transmission, no error, no effect whatsoever — when playback is
active. -/
theorem c5_valid_chunk_send_or_discard
    (s sp : CaptureState) (dataSizes : List Nat)
    (hopen : wsIsOpen s = true)
    (hchunks : dataSizes.filter (fun n => decide (0 < n)) ≠ [])
    (hsize : MIN_CHUNK_SIZE ≤ (dataSizes.filter (fun n => decide (0 < n))).sum)
    (hnp : s.isAudioPlaying = false)
    (hopenP : wsIsOpen sp = true)
    (hp : sp.isAudioPlaying = true) :
    ((handleChunkStop s dataSizes).2
        = Action.sendChunk ((dataSizes.filter (fun n => decide (0 < n))).sum)
            :: chunkCycleReschedule s
      ∧ (handleChunkStop s dataSizes).1 = { s with corruptedChunksCount := 0 })
    ∧ ((handleChunkStop sp dataSizes).2 = []
      ∧ (handleChunkStop sp dataSizes).1 = { sp with corruptedChunksCount := 0 }) := by
  have hws : s.ws = some WsReadyState.opened := by simpa [wsIsOpen] using hopen
  have hwsP : sp.ws = some WsReadyState.opened := by simpa [wsIsOpen] using hopenP
  constructor
  · constructor
    · simp [handleChunkStop, chunkSendActions, chunkCycleReschedule, wsIsOpen,
        hws, hchunks, not_lt.mpr hsize, hsize, hnp]
    · simp [handleChunkStop, wsIsOpen, hws, hchunks, not_lt.mpr hsize]
  · constructor
    · simp [handleChunkStop, chunkSendActions, chunkCycleReschedule, wsIsOpen,
        hwsP, hchunks, not_lt.mpr hsize, hp]
    · simp [handleChunkStop, wsIsOpen, hwsP, hchunks, not_lt.mpr hsize]

/-- C5 witness: a 600-byte chunk is sent while idle and dropped while
playback is active. -/
theorem c5_valid_chunk_send_or_discard_witness :
    ((handleChunkStop sampleActive [600]).2
        = Action.sendChunk (([600].filter (fun n => decide (0 < n))).sum)
            :: chunkCycleReschedule sampleActive
      ∧ (handleChunkStop sampleActive [600]).1
          = { sampleActive with corruptedChunksCount := 0 })
    ∧ ((handleChunkStop samplePlaying [600]).2 = []
      ∧ (handleChunkStop samplePlaying [600]).1
          = { samplePlaying with corruptedChunksCount := 0 }) :=
  c5_valid_chunk_send_or_discard sampleActive samplePlaying [600]
    (by decide) (by decide) (by decide) (by decide) (by decide) (by decide)

/-- C6: `setAudioPlaying(true)` during recording stops the in-flight
recorder immediately; the chunk that this finalizes is never sent (the
playback flag is already up when `onstop` runs); `setAudioPlaying(false)`
while the session is active arms the fixed 100 ms resume timer, whose
callback restarts the chunk cycle only if the session is still active —
and does nothing at all if `stopRecording` ran in between. -/
theorem c6_playback_pause_resume
    (s sr s2 s3 : CaptureState) (dataSizes : List Nat)
    (hnp : s.isAudioPlaying = false)
    (hrec : s.mediaRecorder = some .recording)
    (hrp : sr.isAudioPlaying = true)
    (hrr : sr.isRecording = true)
    (h2r : s2.isRecording = true)
    (h2s : s2.audioStream = true)
    (h2m : s2.mediaRecorder ≠ some .recording)
    (h3 : s3.isRecording = false) :
    setAudioPlaying s true = ({ s with isAudioPlaying := true }, [Action.recorderStop])
    ∧ (∀ sz, Action.sendChunk sz ∉
        (handleChunkStop { s with isAudioPlaying := true } dataSizes).2)
    ∧ setAudioPlaying sr false
        = ({ sr with isAudioPlaying := false }, [Action.scheduleResume 100])
    ∧ resumeTimerFire s2 = ({ s2 with mediaRecorder := some .recording },
        [Action.recorderStart, Action.scheduleStop (s2.chunkLengthSeconds * 1000)])
    ∧ resumeTimerFire s3 = (s3, []) := by
  refine ⟨?_, ?_, ?_, ?_, ?_⟩
  · simp [setAudioPlaying, hnp, hrec]
  · intro sz
    simp only [handleChunkStop, chunkSendActions, chunkCycleReschedule]
    split_ifs <;> simp_all
  · simp [setAudioPlaying, hrp, hrr]
  · simp [resumeTimerFire, startRecordingCycle, h2r, h2s, h2m]
  · simp [resumeTimerFire, h3]

/-- C6 witness: pausing from a live cycle, the dropped finalized chunk,
and resuming (or not, after a stop) at concrete states. -/
theorem c6_playback_pause_resume_witness :
    setAudioPlaying sampleActive true
        = ({ sampleActive with isAudioPlaying := true }, [Action.recorderStop])
    ∧ (∀ sz, Action.sendChunk sz ∉
        (handleChunkStop { sampleActive with isAudioPlaying := true } [600]).2)
    ∧ setAudioPlaying samplePlaying false
        = ({ samplePlaying with isAudioPlaying := false }, [Action.scheduleResume 100])
    ∧ resumeTimerFire sampleBetweenCycles
        = ({ sampleBetweenCycles with mediaRecorder := some .recording },
           [Action.recorderStart,
            Action.scheduleStop (sampleBetweenCycles.chunkLengthSeconds * 1000)])
    ∧ resumeTimerFire sampleClosed = (sampleClosed, []) :=
  c6_playback_pause_resume sampleActive samplePlaying sampleBetweenCycles sampleClosed [600]
    (by decide) (by decide) (by decide) (by decide) (by decide) (by decide)
    (by decide) (by decide)

/-- C7 counterexample: in the deployed wiring — `AppContent` supplies the
`onAutoplayBlocked` callback — a blocked autoplay start neither calls
`setAudioPlaying(false)` nor sends `audio_ended`; it only shows the
unlock modal. -/
theorem c7_counterexample :
    AppEffect.sendControl "audio_ended" ∉ playbackEffects true .blockedAutoplay
    ∧ AppEffect.setAudioPlaying false ∉ playbackEffects true .blockedAutoplay
    ∧ playbackEffects true .blockedAutoplay = [AppEffect.showUnlockModal] := by
  decide

/-- C7 (amended): natural completion, a playback/decode error after
start, and a resource error all converge on `setPlaybackActive(false)`
immediately followed by the `audio_ended` control message; so does a
blocked autoplay start when no autoplay-blocked handler is installed.
With the handler installed (the deployed wiring) the blocked path
instead only shows the unlock prompt and emits neither — but whenever
capture was actually paused the convergence step does follow, so a
failed playback never leaves the capture session paused: the pause
happens only via the play event, which a blocked start never fires. -/
theorem c7_playback_convergence (hasBlocked : Bool) (o : PlaybackOutcome) :
    (o ≠ .blockedAutoplay ∨ hasBlocked = false →
        [AppEffect.setAudioPlaying false, AppEffect.sendControl "audio_ended"]
          <:+: playbackEffects hasBlocked o)
    ∧ (AppEffect.setAudioPlaying true ∈ playbackEffects hasBlocked o →
        [AppEffect.setAudioPlaying false, AppEffect.sendControl "audio_ended"]
          <:+: playbackEffects hasBlocked o)
    ∧ playbackEffects true .blockedAutoplay = [AppEffect.showUnlockModal]
    ∧ AppEffect.setAudioPlaying true ∉ playbackEffects true .blockedAutoplay := by
  cases hasBlocked <;> cases o <;> exact ⟨by decide, by decide, by decide, by decide⟩

/-- C7 witness: the natural-completion path in the deployed wiring pauses
capture and then performs the convergence step. -/
theorem c7_playback_convergence_witness :
    (PlaybackOutcome.completes ≠ .blockedAutoplay ∨ true = false →
        [AppEffect.setAudioPlaying false, AppEffect.sendControl "audio_ended"]
          <:+: playbackEffects true .completes)
    ∧ (AppEffect.setAudioPlaying true ∈ playbackEffects true .completes →
        [AppEffect.setAudioPlaying false, AppEffect.sendControl "audio_ended"]
          <:+: playbackEffects true .completes)
    ∧ playbackEffects true .blockedAutoplay = [AppEffect.showUnlockModal]
    ∧ AppEffect.setAudioPlaying true ∉ playbackEffects true .blockedAutoplay :=
  c7_playback_convergence true .completes

/-- C8 counterexample: a successful `startRecording` on an idle state
with a stale corrupt-chunk counter enters Recording but leaves the
counter at 1 — it does not reset it to 0. -/
theorem c8_counterexample :
    (startRecording staleCounterState true (Except.ok ()) 3).1.isRecording = true
    ∧ (startRecording staleCounterState true (Except.ok ()) 3).2.2 = none
    ∧ (startRecording staleCounterState true (Except.ok ()) 3).1.corruptedChunksCount = 1 := by
  decide

/-- C8 (amended): `startRecording` fails with an enhanced error that
keeps the failure signal's name and carries a signal-specific message —
the four canonical causes (no secure transport, permission denied, no
device, device busy) yield four pairwise-distinct messages; on success
it transitions to Recording with the given chunk length, acquires the
stream, and begins the chunk cycle. It leaves `corruptedChunksCount`
unchanged; the reset to 0 is performed by `stopRecording` (hence by the
stop/start restart sequence), not by start. -/
theorem c8_start_contract
    (s : CaptureState) (len : Nat)
    (hidle : s.isRecording = false) :
    (startRecording s false (Except.ok ()) len).2.2
        = some ⟨"NotSupportedError", notSupportedMessage⟩
    ∧ (∀ e, (startRecording s true (Except.error e) len).2.2 = some (enhanceError e)
        ∧ (enhanceError e).name = e.name
        ∧ (startRecording s true (Except.error e) len).1.isRecording = false)
    ∧ ([(enhanceError ⟨"NotAllowedError", ""⟩).message,
        (enhanceError ⟨"NotFoundError", ""⟩).message,
        (enhanceError ⟨"NotReadableError", ""⟩).message,
        (enhanceError ⟨"NotSupportedError", notSupportedMessage⟩).message] : List String).Nodup
    ∧ ((startRecording s true (Except.ok ()) len).1.isRecording = true
        ∧ (startRecording s true (Except.ok ()) len).1.chunkLengthSeconds = len
        ∧ (startRecording s true (Except.ok ()) len).1.audioStream = true
        ∧ (startRecording s true (Except.ok ()) len).1.corruptedChunksCount
            = s.corruptedChunksCount
        ∧ (s.mediaRecorder ≠ some .recording →
            (startRecording s true (Except.ok ()) len).1.mediaRecorder = some .recording
            ∧ Action.recorderStart ∈ (startRecording s true (Except.ok ()) len).2.1))
    ∧ (stopRecording s).1.corruptedChunksCount = 0 := by
  refine ⟨?_, ?_, by decide, ⟨?_, ?_, ?_, ?_, ?_⟩, rfl⟩
  · simp [startRecording, hidle, enhanceError, enhancedMessage]
  · intro e
    refine ⟨by simp [startRecording, hidle], rfl, by simp [startRecording, hidle]⟩
  · simp [startRecording, startRecordingCycle, hidle]
    split_ifs <;> rfl
  · simp [startRecording, startRecordingCycle, hidle]
    split_ifs <;> rfl
  · simp [startRecording, startRecordingCycle, hidle]
    split_ifs <;> rfl
  · simp [startRecording, startRecordingCycle, hidle]
    split_ifs <;> rfl
  · intro hm
    constructor
    · simp [startRecording, startRecordingCycle, hidle, hm]
    · simp [startRecording, startRecordingCycle, hidle, hm]

/-- C8 witness: starting from an idle state at chunk length 3. -/
theorem c8_start_contract_witness :
    (startRecording sampleIdle false (Except.ok ()) 3).2.2
        = some ⟨"NotSupportedError", notSupportedMessage⟩
    ∧ (∀ e, (startRecording sampleIdle true (Except.error e) 3).2.2 = some (enhanceError e)
        ∧ (enhanceError e).name = e.name
        ∧ (startRecording sampleIdle true (Except.error e) 3).1.isRecording = false)
    ∧ ([(enhanceError ⟨"NotAllowedError", ""⟩).message,
        (enhanceError ⟨"NotFoundError", ""⟩).message,
        (enhanceError ⟨"NotReadableError", ""⟩).message,
        (enhanceError ⟨"NotSupportedError", notSupportedMessage⟩).message] : List String).Nodup
    ∧ ((startRecording sampleIdle true (Except.ok ()) 3).1.isRecording = true
        ∧ (startRecording sampleIdle true (Except.ok ()) 3).1.chunkLengthSeconds = 3
        ∧ (startRecording sampleIdle true (Except.ok ()) 3).1.audioStream = true
        ∧ (startRecording sampleIdle true (Except.ok ()) 3).1.corruptedChunksCount
            = sampleIdle.corruptedChunksCount
        ∧ (sampleIdle.mediaRecorder ≠ some .recording →
            (startRecording sampleIdle true (Except.ok ()) 3).1.mediaRecorder
                = some .recording
            ∧ Action.recorderStart ∈ (startRecording sampleIdle true (Except.ok ()) 3).2.1))
    ∧ (stopRecording sampleIdle).1.corruptedChunksCount = 0 :=
  c8_start_contract sampleIdle 3 (by decide)

/-- C9: `stopRecording` clears all chunk state (recording and playback
flags, corrupt counter, recorder, stream), releases the microphone when
one is held, and is idempotent — a second call changes nothing and
performs no effects; as a total function it never throws, in any
state. -/
theorem c9_stop_idempotent (s : CaptureState) :
    (stopRecording s).1.isRecording = false
    ∧ (stopRecording s).1.isAudioPlaying = false
    ∧ (stopRecording s).1.corruptedChunksCount = 0
    ∧ (stopRecording s).1.mediaRecorder = none
    ∧ (stopRecording s).1.audioStream = false
    ∧ stopRecording (stopRecording s).1 = ((stopRecording s).1, [])
    ∧ (s.audioStream = true → Action.stopTracks ∈ (stopRecording s).2) := by
  refine ⟨rfl, rfl, rfl, rfl, rfl, ?_, ?_⟩
  · simp [stopRecording]
  · intro h
    simp [stopRecording, h]

/-- C9 witness: stopping a live session, then stopping again. -/
theorem c9_stop_idempotent_witness :
    (stopRecording sampleActive).1.isRecording = false
    ∧ (stopRecording sampleActive).1.isAudioPlaying = false
    ∧ (stopRecording sampleActive).1.corruptedChunksCount = 0
    ∧ (stopRecording sampleActive).1.mediaRecorder = none
    ∧ (stopRecording sampleActive).1.audioStream = false
    ∧ stopRecording (stopRecording sampleActive).1 = ((stopRecording sampleActive).1, [])
    ∧ (sampleActive.audioStream = true →
        Action.stopTracks ∈ (stopRecording sampleActive).2) :=
  c9_stop_idempotent sampleActive

/-- C10: every outbound send — binary chunk, control message, status
request — is guarded by an existing socket in the OPEN state; with the
socket absent, connecting, closing or closed, the send is skipped with
no effect at all (no error, no retry, no queue); in particular an
`audio_ended` after `disconnect()` is simply lost. -/
theorem sendChunk_not_mem_reschedule (s : CaptureState) (sz : Nat) :
    Action.sendChunk sz ∉ chunkCycleReschedule s := by
  rw [chunkCycleReschedule]
  split <;> simp

theorem c10_sends_guarded (s : CaptureState) (msgType : String) (dataSizes : List Nat) :
    (wsIsOpen s = false → sendControlMessage s msgType = [])
    ∧ (∀ m, Action.sendControl m ∈ sendControlMessage s msgType → wsIsOpen s = true)
    ∧ (∀ sz, Action.sendChunk sz ∈ (handleChunkStop s dataSizes).2 → wsIsOpen s = true)
    ∧ getStatus s = sendControlMessage s "get_status"
    ∧ (disconnect s).1.ws = none
    ∧ sendControlMessage (disconnect s).1 "audio_ended" = [] := by
  have hdisc : (disconnect s).1.ws = none := by
    by_cases h : s.ws = none
    · simp [disconnect, stopRecording, h]
    · simp [disconnect, stopRecording, h]
  refine ⟨?_, ?_, ?_, rfl, hdisc, ?_⟩
  · intro h
    simp [sendControlMessage, h]
  · intro m hm
    by_cases h : wsIsOpen s = true
    · exact h
    · rw [sendControlMessage, if_neg h] at hm
      exact absurd hm (List.not_mem_nil _)
  · intro sz hm
    by_cases h : wsIsOpen s = true
    · exact h
    · exfalso
      have h' : wsIsOpen s = false := by simpa using h
      exact sendChunk_not_mem_reschedule s sz (by simpa [handleChunkStop, h'] using hm)
  · have hclosed : wsIsOpen (disconnect s).1 = false := by simp [wsIsOpen, hdisc]
    simp [sendControlMessage, hclosed]

/-- C10 witness: with the socket torn down, a control send and an
`audio_ended` after disconnect both do nothing. -/
theorem c10_sends_guarded_witness :
    (wsIsOpen sampleClosed = false → sendControlMessage sampleClosed "audio_ended" = [])
    ∧ (∀ m, Action.sendControl m ∈ sendControlMessage sampleClosed "audio_ended" →
        wsIsOpen sampleClosed = true)
    ∧ (∀ sz, Action.sendChunk sz ∈ (handleChunkStop sampleClosed [600]).2 →
        wsIsOpen sampleClosed = true)
    ∧ getStatus sampleClosed = sendControlMessage sampleClosed "get_status"
    ∧ (disconnect sampleClosed).1.ws = none
    ∧ sendControlMessage (disconnect sampleClosed).1 "audio_ended" = [] :=
  c10_sends_guarded sampleClosed "audio_ended" [600]

end Sobub
